import Mathlib

/-!
Verification development for the FCN semantic-segmentation models of
`models/fcn.py` (FCN32s, FCN16s, FCN8s, `_FCNHead`, and the
`get_fcn32s`/`get_fcn16s`/`get_fcn8s` factories).

The embedding is value-level: a tensor is a 4-D shape record together with a
total valuation over indices, with rational values.  Convolutions, inference
mode batch normalization, ReLU, dropout (with an explicit Bernoulli mask so
that training/eval behaviour is observable) and corner-aligned bilinear
interpolation are embedded directly from the source.  The VGG backbone,
the dataset registry and the model store are external collaborators of the
repository; they appear as parameters (a list of layer functions, a lookup
function returning a class count, and the resolved weight key recorded in
the factory result).
-/

/-- A 4-D tensor `[batch, channels, height, width]`.  The valuation is total
over natural indices; operations only ever read in-bounds positions of their
inputs. -/
structure Tensor where
  batch : Nat
  channels : Nat
  height : Nat
  width : Nat
  val : Nat → Nat → Nat → Nat → ℚ

/-- Elementwise addition (`upscore2 + score_pool4` and friends); both summands
have identical shapes at every use site in `forward`. -/
def Tensor.add (a b : Tensor) : Tensor :=
  { batch := a.batch, channels := a.channels, height := a.height, width := a.width,
    val := fun n c y x => a.val n c y x + b.val n c y x }

/-- The tensor of the same shape as `t` whose values are all replaced by zero. -/
def Tensor.zeroLike (t : Tensor) : Tensor :=
  { t with val := fun _ _ _ _ => 0 }

theorem Tensor.eq_of_parts {a b : Tensor} (hb : a.batch = b.batch)
    (hc : a.channels = b.channels) (hh : a.height = b.height)
    (hw : a.width = b.width) (hv : a.val = b.val) : a = b := by
  cases a
  cases b
  cases hb
  cases hc
  cases hh
  cases hw
  cases hv
  rfl

theorem Tensor.add_zeroLike (a b : Tensor) : a.add b.zeroLike = a := by
  refine Tensor.eq_of_parts rfl rfl rfl rfl ?_
  funext n c y x
  simp [Tensor.add, Tensor.zeroLike]

/-- Source coordinate of output index `outIdx` under `align_corners=True`
bilinear sampling: the corner samples of source and target grids coincide,
so the scale is `(inSize - 1) / (outSize - 1)` (and `0` for a single-sample
output). -/
def srcCoord (outIdx inSize outSize : Nat) : ℚ :=
  if outSize ≤ 1 then 0 else (outIdx : ℚ) * ((inSize : ℚ) - 1) / ((outSize : ℚ) - 1)

/-- Embedding of `F.interpolate(t, (outH, outW), mode=bilinear,
align_corners=True)`: each output sample bilinearly interpolates the four
surrounding source samples of its corner-aligned source coordinate. -/
def interpolateBilinear (t : Tensor) (outH outW : Nat) : Tensor :=
  { batch := t.batch, channels := t.channels, height := outH, width := outW,
    val := fun n c y x =>
      let sy := srcCoord y t.height outH
      let sx := srcCoord x t.width outW
      let y0 := (⌊sy⌋).toNat
      let x0 := (⌊sx⌋).toNat
      let y1 := min (y0 + 1) (t.height - 1)
      let x1 := min (x0 + 1) (t.width - 1)
      let ly := sy - (y0 : ℚ)
      let lx := sx - (x0 : ℚ)
      (1 - ly) * ((1 - lx) * t.val n c y0 x0 + lx * t.val n c y0 x1)
        + ly * ((1 - lx) * t.val n c y1 x0 + lx * t.val n c y1 x1) }

/-- A `nn.Conv2d(inC, outC, 1)` layer: kernel size 1, stride 1, no padding,
with bias (PyTorch default). -/
structure Conv1x1Layer where
  inC : Nat
  outC : Nat
  w : Nat → Nat → ℚ
  b : Nat → ℚ

/-- Applying a 1×1 convolution: per output channel, a bias plus a weighted sum
over the declared input channels at the same spatial position; spatial size is
preserved. -/
def Conv1x1Layer.apply (c : Conv1x1Layer) (t : Tensor) : Tensor :=
  { batch := t.batch, channels := c.outC, height := t.height, width := t.width,
    val := fun n ch y x => c.b ch + ∑ k ∈ Finset.range c.inC, c.w ch k * t.val n k y x }

/-- Zero-padded read of `t` at a possibly out-of-range spatial position. -/
def padRead (t : Tensor) (n c : Nat) (y x : Int) : ℚ :=
  if 0 ≤ y ∧ y < (t.height : Int) ∧ 0 ≤ x ∧ x < (t.width : Int) then
    t.val n c y.toNat x.toNat
  else 0

/-- Embedding of `nn.Conv2d(inC, outC, 3, padding=1, bias=False)`: a 3×3
convolution with zero padding 1 and no bias; spatial size is preserved. -/
def conv3x3pad1 (inC outC : Nat) (w : Nat → Nat → Nat → Nat → ℚ) (t : Tensor) : Tensor :=
  { batch := t.batch, channels := outC, height := t.height, width := t.width,
    val := fun n c y x =>
      ∑ k ∈ Finset.range inC, ∑ dy ∈ Finset.range 3, ∑ dx ∈ Finset.range 3,
        w c k dy dx * padRead t n k ((y : Int) + (dy : Int) - 1) ((x : Int) + (dx : Int) - 1) }

/-- Inference-mode `nn.BatchNorm2d`: with frozen running statistics the layer
is a per-channel affine map `v ↦ scale c * v + shift c`, where
`scale c = γ c / sqrt(var c + ε)` and `shift c = β c - scale c * mean c`.  The
embedded models are studied in inference mode, so the per-channel affine
coefficients are the layer's parameters. -/
def batchNorm2d (scale shift : Nat → ℚ) (t : Tensor) : Tensor :=
  { t with val := fun n c y x => scale c * t.val n c y x + shift c }

/-- Embedding of `nn.ReLU`: pointwise rectification. -/
def relu (t : Tensor) : Tensor :=
  { t with val := fun n c y x => max 0 (t.val n c y x) }

/-- A dropout sampling mask: which positions are zeroed on a training-mode
forward pass. -/
abbrev DropMask := Nat → Nat → Nat → Nat → Bool

/-- Embedding of `nn.Dropout(p)`: in training mode each masked position is
zeroed and the rest are rescaled by `1 / (1 - p)`; in evaluation mode the
layer is the identity. -/
def dropout (p : ℚ) (training : Bool) (mask : DropMask) (t : Tensor) : Tensor :=
  if training then
    { t with val := fun n c y x => if mask n c y x then 0 else t.val n c y x / (1 - p) }
  else t

/-- The raw trainable parameters of a `_FCNHead` block: the 3×3 conv kernel,
the per-channel batch-norm affine coefficients, and the final 1×1 conv kernel
and bias. -/
structure HeadParams where
  conv1w : Nat → Nat → Nat → Nat → ℚ
  bnScale : Nat → ℚ
  bnShift : Nat → ℚ
  conv2w : Nat → Nat → ℚ
  conv2b : Nat → ℚ

/-- The `_FCNHead(in_channels, channels)` module: its constructor records the
two channel counts and builds the five-layer sequential block. -/
structure FCNHead where
  in_channels : Nat
  channels : Nat
  p : HeadParams

/-- Forward pass of `_FCNHead.block`: `Conv2d(in_channels, in_channels // 4,
3, padding=1, bias=False)`, then `BatchNorm2d`, then `ReLU`, then
`Dropout(0.1)`, then `Conv2d(in_channels // 4, channels, 1)`. -/
def FCNHead.apply (h : FCNHead) (training : Bool) (mask : DropMask) (t : Tensor) : Tensor :=
  Conv1x1Layer.apply ⟨h.in_channels / 4, h.channels, h.p.conv2w, h.p.conv2b⟩
    (dropout (1/10) training mask
      (relu (batchNorm2d h.p.bnScale h.p.bnShift
        (conv3x3pad1 h.in_channels (h.in_channels / 4) h.p.conv1w t))))

/-- Applying an `nn.Sequential` built from a list of layers: the layers run
left to right. -/
def seqApply (ls : List (Tensor → Tensor)) (t : Tensor) : Tensor :=
  ls.foldl (fun a f => f a) t

/-- Python-style runtime errors surfaced by the module: `KeyError` from a
dictionary lookup, `RuntimeError` from an explicit raise. -/
inductive PyError where
  | keyError (key : String)
  | runtimeError (msg : String)
deriving DecidableEq

/-- The `FCN32s` model: class count, aux flag, the backbone layer sequence
`vgg16(...).features` (an external collaborator, kept abstract as a list of
layer functions), and the parameters of the main and auxiliary heads. -/
structure FCN32sModel where
  nclass : Nat
  aux : Bool
  features : List (Tensor → Tensor)
  headp : HeadParams
  auxp : HeadParams

/-- Line `self.head = _FCNHead(512, nclass)` of `FCN32s.__init__`. -/
def FCN32sModel.head (m : FCN32sModel) : FCNHead :=
  ⟨512, m.nclass, m.headp⟩

/-- Line `self.auxlayer = _FCNHead(512, nclass)` of `FCN32s.__init__`. -/
def FCN32sModel.auxlayer (m : FCN32sModel) : FCNHead :=
  ⟨512, m.nclass, m.auxp⟩

/-- Constructor `FCN32s.__init__`: accepts only the `vgg16` backbone, raising
`RuntimeError('unknown backbone: ...')` otherwise.  `features` stands for
`vgg16(pretrained=pretrained_base).features` and the head parameters for the
freshly initialized modules. -/
def FCN32sModel.make (nclass : Nat) (backbone : String) (aux : Bool)
    (pretrained_base : Bool) (features : List (Tensor → Tensor))
    (hp ap : HeadParams) : Except PyError FCN32sModel :=
  if backbone = "vgg16" then
    .ok { nclass := nclass, aux := aux, features := features, headp := hp, auxp := ap }
  else
    .error (.runtimeError ("unknown backbone: " ++ backbone))

/-- Method `FCN32s.forward`: run the whole backbone, score with the head, upsample to
the input's spatial size; when `aux` is set, additionally score `pool5` with
the auxiliary head and upsample it independently.  The returned tuple is a
list of outputs. -/
def FCN32sModel.forward (m : FCN32sModel) (training : Bool) (mask amask : DropMask)
    (x : Tensor) : List Tensor :=
  let pool5 := seqApply m.features x
  let out := interpolateBilinear (m.head.apply training mask pool5) x.height x.width
  if m.aux then
    [out, interpolateBilinear (m.auxlayer.apply training amask pool5) x.height x.width]
  else
    [out]

/-- The `FCN16s` model: as `FCN32s`, plus the `score_pool4` projector
parameters. -/
structure FCN16sModel where
  nclass : Nat
  aux : Bool
  features : List (Tensor → Tensor)
  headp : HeadParams
  sp4w : Nat → Nat → ℚ
  sp4b : Nat → ℚ
  auxp : HeadParams

/-- Line `self.pool4 = nn.Sequential(*self.features[:24])`. -/
def FCN16sModel.pool4seq (m : FCN16sModel) : List (Tensor → Tensor) :=
  m.features.take 24

/-- Line `self.pool5 = nn.Sequential(*self.features[24:])`. -/
def FCN16sModel.pool5seq (m : FCN16sModel) : List (Tensor → Tensor) :=
  m.features.drop 24

/-- Line `self.head = _FCNHead(512, nclass)` of `FCN16s.__init__`. -/
def FCN16sModel.head (m : FCN16sModel) : FCNHead :=
  ⟨512, m.nclass, m.headp⟩

/-- Line `self.score_pool4 = nn.Conv2d(512, nclass, 1)` of `FCN16s.__init__`. -/
def FCN16sModel.score_pool4 (m : FCN16sModel) : Conv1x1Layer :=
  ⟨512, m.nclass, m.sp4w, m.sp4b⟩

/-- Line `self.auxlayer = _FCNHead(512, nclass)` of `FCN16s.__init__`. -/
def FCN16sModel.auxlayer (m : FCN16sModel) : FCNHead :=
  ⟨512, m.nclass, m.auxp⟩

/-- Constructor `FCN16s.__init__`: accepts only the `vgg16` backbone, raising
`RuntimeError('unknown backbone: ...')` otherwise. -/
def FCN16sModel.make (nclass : Nat) (backbone : String) (aux : Bool)
    (pretrained_base : Bool) (features : List (Tensor → Tensor))
    (hp : HeadParams) (sp4w : Nat → Nat → ℚ) (sp4b : Nat → ℚ)
    (ap : HeadParams) : Except PyError FCN16sModel :=
  if backbone = "vgg16" then
    .ok { nclass := nclass, aux := aux, features := features, headp := hp,
          sp4w := sp4w, sp4b := sp4b, auxp := ap }
  else
    .error (.runtimeError ("unknown backbone: " ++ backbone))

/-- Method `FCN16s.forward`: `pool4` and `pool5` from the two backbone slices,
`score_fr = head(pool5)`, `score_pool4 = score_pool4(pool4)`, upsample
`score_fr` to `score_pool4`'s spatial size, add, upsample the fusion to the
input's spatial size; aux output as in `FCN32s`. -/
def FCN16sModel.forward (m : FCN16sModel) (training : Bool) (mask amask : DropMask)
    (x : Tensor) : List Tensor :=
  let pool4 := seqApply m.pool4seq x
  let pool5 := seqApply m.pool5seq pool4
  let score_fr := m.head.apply training mask pool5
  let score_pool4 := m.score_pool4.apply pool4
  let upscore2 := interpolateBilinear score_fr score_pool4.height score_pool4.width
  let fuse_pool4 := upscore2.add score_pool4
  let out := interpolateBilinear fuse_pool4 x.height x.width
  if m.aux then
    [out, interpolateBilinear (m.auxlayer.apply training amask pool5) x.height x.width]
  else
    [out]

/-- The `FCN8s` model: as `FCN16s`, plus the `score_pool3` projector
parameters. -/
structure FCN8sModel where
  nclass : Nat
  aux : Bool
  features : List (Tensor → Tensor)
  headp : HeadParams
  sp3w : Nat → Nat → ℚ
  sp3b : Nat → ℚ
  sp4w : Nat → Nat → ℚ
  sp4b : Nat → ℚ
  auxp : HeadParams

/-- Line `self.pool3 = nn.Sequential(*self.features[:17])`. -/
def FCN8sModel.pool3seq (m : FCN8sModel) : List (Tensor → Tensor) :=
  m.features.take 17

/-- Line `self.pool4 = nn.Sequential(*self.features[17:24])`. -/
def FCN8sModel.pool4seq (m : FCN8sModel) : List (Tensor → Tensor) :=
  (m.features.take 24).drop 17

/-- Line `self.pool5 = nn.Sequential(*self.features[24:])`. -/
def FCN8sModel.pool5seq (m : FCN8sModel) : List (Tensor → Tensor) :=
  m.features.drop 24

/-- Line `self.head = _FCNHead(512, nclass)` of `FCN8s.__init__`. -/
def FCN8sModel.head (m : FCN8sModel) : FCNHead :=
  ⟨512, m.nclass, m.headp⟩

/-- Line `self.score_pool3 = nn.Conv2d(256, nclass, 1)` of `FCN8s.__init__`. -/
def FCN8sModel.score_pool3 (m : FCN8sModel) : Conv1x1Layer :=
  ⟨256, m.nclass, m.sp3w, m.sp3b⟩

/-- Line `self.score_pool4 = nn.Conv2d(512, nclass, 1)` of `FCN8s.__init__`. -/
def FCN8sModel.score_pool4 (m : FCN8sModel) : Conv1x1Layer :=
  ⟨512, m.nclass, m.sp4w, m.sp4b⟩

/-- Line `self.auxlayer = _FCNHead(512, nclass)` of `FCN8s.__init__`. -/
def FCN8sModel.auxlayer (m : FCN8sModel) : FCNHead :=
  ⟨512, m.nclass, m.auxp⟩

/-- Constructor `FCN8s.__init__`: accepts only the `vgg16` backbone, raising
`RuntimeError('unknown backbone: ...')` otherwise. -/
def FCN8sModel.make (nclass : Nat) (backbone : String) (aux : Bool)
    (pretrained_base : Bool) (features : List (Tensor → Tensor))
    (hp : HeadParams) (sp3w : Nat → Nat → ℚ) (sp3b : Nat → ℚ)
    (sp4w : Nat → Nat → ℚ) (sp4b : Nat → ℚ)
    (ap : HeadParams) : Except PyError FCN8sModel :=
  if backbone = "vgg16" then
    .ok { nclass := nclass, aux := aux, features := features, headp := hp,
          sp3w := sp3w, sp3b := sp3b, sp4w := sp4w, sp4b := sp4b, auxp := ap }
  else
    .error (.runtimeError ("unknown backbone: " ++ backbone))

/-- Method `FCN8s.forward`: `pool3`, `pool4`, `pool5` from the three backbone slices;
`score_fr`, `score_pool4`, `score_pool3`; upsample `score_fr` to
`score_pool4`'s size and add; upsample the fusion to `score_pool3`'s size and
add; upsample the result to the input's size; aux output as in `FCN32s`. -/
def FCN8sModel.forward (m : FCN8sModel) (training : Bool) (mask amask : DropMask)
    (x : Tensor) : List Tensor :=
  let pool3 := seqApply m.pool3seq x
  let pool4 := seqApply m.pool4seq pool3
  let pool5 := seqApply m.pool5seq pool4
  let score_fr := m.head.apply training mask pool5
  let score_pool4 := m.score_pool4.apply pool4
  let score_pool3 := m.score_pool3.apply pool3
  let upscore2 := interpolateBilinear score_fr score_pool4.height score_pool4.width
  let fuse_pool4 := upscore2.add score_pool4
  let upscore_pool4 := interpolateBilinear fuse_pool4 score_pool3.height score_pool3.width
  let fuse_pool3 := upscore_pool4.add score_pool3
  let out := interpolateBilinear fuse_pool3 x.height x.width
  if m.aux then
    [out, interpolateBilinear (m.auxlayer.apply training amask pool5) x.height x.width]
  else
    [out]

/-- The first element of a `forward` result tuple (all three variants return a
nonempty tuple whose first element is the primary output). -/
def primaryOf (outs : List Tensor) : Tensor :=
  outs.headD ⟨0, 0, 0, 0, fun _ _ _ _ => 0⟩

/-- The `acronyms` dictionary shared verbatim by `get_fcn32s`, `get_fcn16s`
and `get_fcn8s`. -/
def acronyms (dataset : String) : Option String :=
  if dataset = "pascal_voc" then some "pascal_voc"
  else if dataset = "pascal_aug" then some "pascal_aug"
  else if dataset = "ade20k" then some "ade"
  else if dataset = "coco" then some "coco"
  else if dataset = "citys" then some "citys"
  else none

/-- The weight key resolved by every variant factory when `pretrained` is
true: the literal format string is `'fcn32s_%s_%s' % (backbone,
acronyms[dataset])` in all three factories. -/
def fcnWeightKey (backbone acr : String) : String :=
  "fcn32s_" ++ backbone ++ "_" ++ acr

/-- Factory `get_fcn32s(dataset, backbone, pretrained, ...)`.  The dataset registry
`data_loader.datasets` is an external collaborator passed in as `datasets`
(mapping a dataset id to its `NUM_CLASS`; an unregistered id is a
`KeyError`, raised by `datasets[dataset].NUM_CLASS` before the variant
constructor runs).  On success the result carries the model together with
the weight key resolved from the model store when `pretrained` is true
(`none` when no pretrained load happens). -/
def get_fcn32s (datasets : String → Option Nat) (dataset backbone : String)
    (pretrained : Bool) (pretrained_base : Bool) (aux : Bool)
    (features : List (Tensor → Tensor)) (hp ap : HeadParams) :
    Except PyError (FCN32sModel × Option String) :=
  match datasets dataset with
  | none => .error (.keyError dataset)
  | some nclass =>
    match FCN32sModel.make nclass backbone aux pretrained_base features hp ap with
    | .error e => .error e
    | .ok m =>
      if pretrained then
        match acronyms dataset with
        | none => .error (.keyError dataset)
        | some acr => .ok (m, some (fcnWeightKey backbone acr))
      else .ok (m, none)

/-- Factory `get_fcn16s(dataset, backbone, pretrained, ...)`; same structure as
`get_fcn32s`, constructing `FCN16s` — and resolving the weight key with the
same `'fcn32s_%s_%s'` format string as the 32s factory. -/
def get_fcn16s (datasets : String → Option Nat) (dataset backbone : String)
    (pretrained : Bool) (pretrained_base : Bool) (aux : Bool)
    (features : List (Tensor → Tensor)) (hp : HeadParams)
    (sp4w : Nat → Nat → ℚ) (sp4b : Nat → ℚ) (ap : HeadParams) :
    Except PyError (FCN16sModel × Option String) :=
  match datasets dataset with
  | none => .error (.keyError dataset)
  | some nclass =>
    match FCN16sModel.make nclass backbone aux pretrained_base features hp sp4w sp4b ap with
    | .error e => .error e
    | .ok m =>
      if pretrained then
        match acronyms dataset with
        | none => .error (.keyError dataset)
        | some acr => .ok (m, some (fcnWeightKey backbone acr))
      else .ok (m, none)

/-- Factory `get_fcn8s(dataset, backbone, pretrained, ...)`; same structure as
`get_fcn32s`, constructing `FCN8s` — and resolving the weight key with the
same `'fcn32s_%s_%s'` format string as the 32s factory. -/
def get_fcn8s (datasets : String → Option Nat) (dataset backbone : String)
    (pretrained : Bool) (pretrained_base : Bool) (aux : Bool)
    (features : List (Tensor → Tensor)) (hp : HeadParams)
    (sp3w : Nat → Nat → ℚ) (sp3b : Nat → ℚ)
    (sp4w : Nat → Nat → ℚ) (sp4b : Nat → ℚ) (ap : HeadParams) :
    Except PyError (FCN8sModel × Option String) :=
  match datasets dataset with
  | none => .error (.keyError dataset)
  | some nclass =>
    match FCN8sModel.make nclass backbone aux pretrained_base features hp sp3w sp3b sp4w sp4b ap with
    | .error e => .error e
    | .ok m =>
      if pretrained then
        match acronyms dataset with
        | none => .error (.keyError dataset)
        | some acr => .ok (m, some (fcnWeightKey backbone acr))
      else .ok (m, none)

/-- The weight key a factory resolved, when it succeeded and `pretrained` was
set. -/
def loadedKey {α : Type} : Except PyError (α × Option String) → Option String
  | .ok (_, k) => k
  | .error _ => none

/-- The `pool3` feature tap of `FCN8s.forward` on input `x`. -/
def FCN8sModel.pool3Tap (m : FCN8sModel) (x : Tensor) : Tensor :=
  seqApply m.pool3seq x

/-- The `pool4` feature tap of `FCN8s.forward` on input `x`. -/
def FCN8sModel.pool4Tap (m : FCN8sModel) (x : Tensor) : Tensor :=
  seqApply m.pool4seq (m.pool3Tap x)

/-- The `pool5` (deepest) feature map of `FCN8s.forward` on input `x`. -/
def FCN8sModel.pool5Tap (m : FCN8sModel) (x : Tensor) : Tensor :=
  seqApply m.pool5seq (m.pool4Tap x)

/-- The `score_pool3` skip score of `FCN8s.forward` on input `x`. -/
def FCN8sModel.scorePool3Tap (m : FCN8sModel) (x : Tensor) : Tensor :=
  m.score_pool3.apply (m.pool3Tap x)

/-- The `fuse_pool4` running fused score of `FCN8s.forward` on input `x`: the
head's score of `pool5` upsampled to `score_pool4`'s spatial size, plus
`score_pool4` — exactly the FCN16s-style fusion at the pool4 resolution. -/
def FCN8sModel.fusePool4 (m : FCN8sModel) (training : Bool) (mask : DropMask)
    (x : Tensor) : Tensor :=
  let score_fr := m.head.apply training mask (m.pool5Tap x)
  let score_pool4 := m.score_pool4.apply (m.pool4Tap x)
  (interpolateBilinear score_fr score_pool4.height score_pool4.width).add score_pool4

/-- The primary output of `FCN8s.forward` as a function of the `score_pool3`
tensor `sp3`, with everything upstream of the pool3 fusion fixed: upsample
`fuse_pool4` to `sp3`'s spatial size, add `sp3`, upsample to the input's
spatial size. -/
def FCN8sModel.primaryWithSp3 (m : FCN8sModel) (training : Bool) (mask : DropMask)
    (x : Tensor) (sp3 : Tensor) : Tensor :=
  interpolateBilinear
    ((interpolateBilinear (m.fusePool4 training mask x) sp3.height sp3.width).add sp3)
    x.height x.width

@[simp] theorem interpolateBilinear_batch (t : Tensor) (oh ow : Nat) :
    (interpolateBilinear t oh ow).batch = t.batch := rfl

@[simp] theorem interpolateBilinear_channels (t : Tensor) (oh ow : Nat) :
    (interpolateBilinear t oh ow).channels = t.channels := rfl

@[simp] theorem interpolateBilinear_height (t : Tensor) (oh ow : Nat) :
    (interpolateBilinear t oh ow).height = oh := rfl

@[simp] theorem interpolateBilinear_width (t : Tensor) (oh ow : Nat) :
    (interpolateBilinear t oh ow).width = ow := rfl

@[simp] theorem conv1x1_apply_channels (c : Conv1x1Layer) (t : Tensor) :
    (c.apply t).channels = c.outC := rfl

@[simp] theorem conv1x1_apply_height (c : Conv1x1Layer) (t : Tensor) :
    (c.apply t).height = t.height := rfl

@[simp] theorem conv1x1_apply_width (c : Conv1x1Layer) (t : Tensor) :
    (c.apply t).width = t.width := rfl

@[simp] theorem dropout_channels (p : ℚ) (tr : Bool) (mk : DropMask) (t : Tensor) :
    (dropout p tr mk t).channels = t.channels := by
  cases tr <;> rfl

@[simp] theorem dropout_height (p : ℚ) (tr : Bool) (mk : DropMask) (t : Tensor) :
    (dropout p tr mk t).height = t.height := by
  cases tr <;> rfl

@[simp] theorem dropout_width (p : ℚ) (tr : Bool) (mk : DropMask) (t : Tensor) :
    (dropout p tr mk t).width = t.width := by
  cases tr <;> rfl

@[simp] theorem headApply_channels (h : FCNHead) (tr : Bool) (mk : DropMask) (t : Tensor) :
    (h.apply tr mk t).channels = h.channels := rfl

@[simp] theorem headApply_height (h : FCNHead) (tr : Bool) (mk : DropMask) (t : Tensor) :
    (h.apply tr mk t).height = t.height := by
  simp [FCNHead.apply, relu, batchNorm2d, conv3x3pad1]

@[simp] theorem headApply_width (h : FCNHead) (tr : Bool) (mk : DropMask) (t : Tensor) :
    (h.apply tr mk t).width = t.width := by
  simp [FCNHead.apply, relu, batchNorm2d, conv3x3pad1]

@[simp] theorem Tensor.add_channels (a b : Tensor) : (a.add b).channels = a.channels := rfl

@[simp] theorem Tensor.add_height (a b : Tensor) : (a.add b).height = a.height := rfl

@[simp] theorem Tensor.add_width (a b : Tensor) : (a.add b).width = a.width := rfl

/-- All-zero head parameters, used as a concrete instantiation. -/
def zeroHeadParams : HeadParams :=
  ⟨fun _ _ _ _ => 0, fun _ => 0, fun _ => 0, fun _ _ => 0, fun _ => 0⟩

/-- An all-zero 1×1 kernel, used as a concrete instantiation. -/
def zeroW2 : Nat → Nat → ℚ := fun _ _ => 0

/-- An all-zero bias, used as a concrete instantiation. -/
def zeroB : Nat → ℚ := fun _ => 0

/-- A concrete 1×3×64×64 input image (the shape named in §8 of the spec). -/
def xSample : Tensor := ⟨1, 3, 64, 64, fun _ _ _ _ => 1⟩

/-- Claim C6: for every variant constructor (FCN32s, FCN16s, FCN8s) and every
backbone identifier other than the single supported value `vgg16`,
construction raises `RuntimeError('unknown backbone: ...')` and aborts: the
result is the error, not a model. -/
theorem claim_C6 (nclass : Nat) (backbone : String) (aux pb : Bool)
    (features : List (Tensor → Tensor)) (hp ap : HeadParams)
    (sp3w sp4w : Nat → Nat → ℚ) (sp3b sp4b : Nat → ℚ)
    (hbb : backbone ≠ "vgg16") :
    FCN32sModel.make nclass backbone aux pb features hp ap
        = .error (.runtimeError ("unknown backbone: " ++ backbone))
      ∧ FCN16sModel.make nclass backbone aux pb features hp sp4w sp4b ap
        = .error (.runtimeError ("unknown backbone: " ++ backbone))
      ∧ FCN8sModel.make nclass backbone aux pb features hp sp3w sp3b sp4w sp4b ap
        = .error (.runtimeError ("unknown backbone: " ++ backbone)) := by
  refine ⟨?_, ?_, ?_⟩ <;>
    simp [FCN32sModel.make, FCN16sModel.make, FCN8sModel.make, hbb]

theorem claim_C6_witness :
    ("resnet999" : String) ≠ "vgg16"
      ∧ FCN32sModel.make 21 "resnet999" false true [] zeroHeadParams zeroHeadParams
          = .error (.runtimeError ("unknown backbone: " ++ "resnet999"))
      ∧ FCN16sModel.make 21 "resnet999" false true [] zeroHeadParams zeroW2 zeroB zeroHeadParams
          = .error (.runtimeError ("unknown backbone: " ++ "resnet999"))
      ∧ FCN8sModel.make 21 "resnet999" false true [] zeroHeadParams zeroW2 zeroB zeroW2 zeroB
            zeroHeadParams
          = .error (.runtimeError ("unknown backbone: " ++ "resnet999")) :=
  ⟨by decide,
   claim_C6 21 "resnet999" false true [] zeroHeadParams zeroHeadParams zeroW2 zeroW2 zeroB zeroB
     (by decide)⟩

/-- Claim C5: for every factory function and every dataset identifier not
registered in the dataset registry, the call fails with the unknown-dataset
error (`KeyError` from the registry lookup), and this happens for every
backbone value — including unsupported ones — showing that the class-count
lookup runs strictly before the variant constructor and hence before any
backbone construction. -/
theorem claim_C5 (datasets : String → Option Nat) (dataset : String)
    (hds : datasets dataset = none) (backbone : String)
    (pretrained pb aux : Bool) (features : List (Tensor → Tensor))
    (hp ap : HeadParams) (sp3w sp4w : Nat → Nat → ℚ) (sp3b sp4b : Nat → ℚ) :
    get_fcn32s datasets dataset backbone pretrained pb aux features hp ap
        = .error (.keyError dataset)
      ∧ get_fcn16s datasets dataset backbone pretrained pb aux features hp sp4w sp4b ap
        = .error (.keyError dataset)
      ∧ get_fcn8s datasets dataset backbone pretrained pb aux features hp sp3w sp3b sp4w sp4b ap
        = .error (.keyError dataset) := by
  refine ⟨?_, ?_, ?_⟩ <;> simp [get_fcn32s, get_fcn16s, get_fcn8s, hds]

theorem claim_C5_witness :
    (fun _ : String => (none : Option Nat)) "not_a_dataset" = none
      ∧ get_fcn32s (fun _ => none) "not_a_dataset" "resnet999" true true false []
            zeroHeadParams zeroHeadParams
          = .error (.keyError "not_a_dataset")
      ∧ get_fcn16s (fun _ => none) "not_a_dataset" "resnet999" true true false []
            zeroHeadParams zeroW2 zeroB zeroHeadParams
          = .error (.keyError "not_a_dataset")
      ∧ get_fcn8s (fun _ => none) "not_a_dataset" "resnet999" true true false []
            zeroHeadParams zeroW2 zeroB zeroW2 zeroB zeroHeadParams
          = .error (.keyError "not_a_dataset") :=
  ⟨rfl,
   claim_C5 (fun _ => none) "not_a_dataset" rfl "resnet999" true true false []
     zeroHeadParams zeroHeadParams zeroW2 zeroW2 zeroB zeroB⟩

/-- Claim C4: with `pretrained=true`, a registered dataset and the supported
`vgg16` backbone, all three factories resolve the pretrained weight file with
the literal key `fcn32s_<backbone>_<dataset acronym>` — the `fcn32s_` prefix
also for the 16s and 8s variants, which never resolve variant-specific
keys. -/
theorem claim_C4 (datasets : String → Option Nat) (dataset : String) (nclass : Nat)
    (acr : String) (hds : datasets dataset = some nclass)
    (hacr : acronyms dataset = some acr) (pb aux : Bool)
    (features : List (Tensor → Tensor)) (hp ap : HeadParams)
    (sp3w sp4w : Nat → Nat → ℚ) (sp3b sp4b : Nat → ℚ) :
    loadedKey (get_fcn32s datasets dataset "vgg16" true pb aux features hp ap)
        = some ("fcn32s_" ++ "vgg16" ++ "_" ++ acr)
      ∧ loadedKey (get_fcn16s datasets dataset "vgg16" true pb aux features hp sp4w sp4b ap)
        = some ("fcn32s_" ++ "vgg16" ++ "_" ++ acr)
      ∧ loadedKey (get_fcn8s datasets dataset "vgg16" true pb aux features hp sp3w sp3b
            sp4w sp4b ap)
        = some ("fcn32s_" ++ "vgg16" ++ "_" ++ acr) := by
  refine ⟨?_, ?_, ?_⟩ <;>
    simp [get_fcn32s, get_fcn16s, get_fcn8s, hds, hacr, FCN32sModel.make,
      FCN16sModel.make, FCN8sModel.make, loadedKey, fcnWeightKey]

theorem claim_C4_witness :
    (fun d : String => if d = "ade20k" then some 150 else none) "ade20k" = some 150
      ∧ acronyms "ade20k" = some "ade"
      ∧ loadedKey (get_fcn32s (fun d => if d = "ade20k" then some 150 else none)
            "ade20k" "vgg16" true true false [] zeroHeadParams zeroHeadParams)
          = some ("fcn32s_" ++ "vgg16" ++ "_" ++ "ade")
      ∧ loadedKey (get_fcn16s (fun d => if d = "ade20k" then some 150 else none)
            "ade20k" "vgg16" true true false [] zeroHeadParams zeroW2 zeroB zeroHeadParams)
          = some ("fcn32s_" ++ "vgg16" ++ "_" ++ "ade")
      ∧ loadedKey (get_fcn8s (fun d => if d = "ade20k" then some 150 else none)
            "ade20k" "vgg16" true true false [] zeroHeadParams zeroW2 zeroB zeroW2 zeroB
            zeroHeadParams)
          = some ("fcn32s_" ++ "vgg16" ++ "_" ++ "ade") :=
  ⟨by decide, by decide,
   claim_C4 (fun d => if d = "ade20k" then some 150 else none) "ade20k" 150 "ade"
     (by decide) (by decide) true false [] zeroHeadParams zeroHeadParams
     zeroW2 zeroW2 zeroB zeroB⟩

/-- The output contract of every variant (spec §8): each returned output has
the input's spatial size and `nclass` channels, and the tuple has two
elements when `aux` is set and exactly one element otherwise. -/
def outputsSpec (nclass : Nat) (aux : Bool) (x : Tensor) (outs : List Tensor) : Prop :=
  (∀ o ∈ outs, o.channels = nclass ∧ o.height = x.height ∧ o.width = x.width)
    ∧ outs.length = if aux then 2 else 1

/-- Claim C1: for every variant (FCN32s, FCN16s, FCN8s) and every input of
spatial size `(H, W)`, the primary output of `forward` has spatial size
exactly `(H, W)` and channel count exactly `nclass`; with `aux=true` the
auxiliary output has the same spatial size and channel count, and with
`aux=false` the returned tuple has exactly one element. -/
theorem claim_C1 (m32 : FCN32sModel) (m16 : FCN16sModel) (m8 : FCN8sModel)
    (training : Bool) (mask amask : DropMask) (x : Tensor) :
    outputsSpec m32.nclass m32.aux x (m32.forward training mask amask x)
      ∧ outputsSpec m16.nclass m16.aux x (m16.forward training mask amask x)
      ∧ outputsSpec m8.nclass m8.aux x (m8.forward training mask amask x) := by
  refine ⟨?_, ?_, ?_⟩
  · cases h : m32.aux <;>
      simp [FCN32sModel.forward, outputsSpec, h, FCN32sModel.head, FCN32sModel.auxlayer]
  · cases h : m16.aux <;>
      simp [FCN16sModel.forward, outputsSpec, h, FCN16sModel.head, FCN16sModel.auxlayer,
        FCN16sModel.score_pool4]
  · cases h : m8.aux <;>
      simp [FCN8sModel.forward, outputsSpec, h, FCN8sModel.head, FCN8sModel.auxlayer,
        FCN8sModel.score_pool4, FCN8sModel.score_pool3]

/-- Claim C7: the Prediction Head on a feature map with `in_channels`
channels is exactly the composition of a no-bias 3×3 convolution down to
`in_channels / 4` channels, batch normalization, ReLU, dropout at rate
`1/10` (which is the identity at inference), and a final 1×1 convolution
from `in_channels / 4` to `channels` many channels; the output keeps the
input's spatial size and has `channels` channels. -/
theorem claim_C7 (h : FCNHead) (training : Bool) (mask : DropMask) (t : Tensor) :
    h.apply training mask t
        = Conv1x1Layer.apply ⟨h.in_channels / 4, h.channels, h.p.conv2w, h.p.conv2b⟩
            (dropout (1/10) training mask
              (relu (batchNorm2d h.p.bnScale h.p.bnShift
                (conv3x3pad1 h.in_channels (h.in_channels / 4) h.p.conv1w t))))
      ∧ (∀ (p : ℚ) (mk : DropMask) (s : Tensor), dropout p false mk s = s)
      ∧ (h.apply training mask t).height = t.height
      ∧ (h.apply training mask t).width = t.width
      ∧ (h.apply training mask t).channels = h.channels := by
  refine ⟨rfl, fun p mk s => rfl, ?_, ?_, rfl⟩ <;> simp

/-- Claim C9: the Score Projector on each skip tap is a single 1×1
convolution with bias and nothing else: the `score_pool3` projector of FCN8s
is declared with 256 input channels, the `score_pool4` projectors of FCN8s
and FCN16s with 512 input channels, all with `nclass` output channels; its
output keeps the input's spatial size, and each output value is exactly a
bias plus a weighted sum of the input channels at the same position.  The
concluding forward equation places the projectors on the pool3/pool4 skip
taps while the deepest feature map `pool5` goes through the multi-layer
head. -/
theorem claim_C9 (m8 : FCN8sModel) (m16 : FCN16sModel) (c : Conv1x1Layer) (t : Tensor)
    (n ch y x : Nat) (training : Bool) (mask amask : DropMask) (img : Tensor) :
    m8.score_pool3.inC = 256 ∧ m8.score_pool3.outC = m8.nclass
      ∧ m8.score_pool4.inC = 512 ∧ m8.score_pool4.outC = m8.nclass
      ∧ m16.score_pool4.inC = 512 ∧ m16.score_pool4.outC = m16.nclass
      ∧ (c.apply t).height = t.height ∧ (c.apply t).width = t.width
      ∧ (c.apply t).channels = c.outC
      ∧ (c.apply t).val n ch y x
          = c.b ch + ∑ k ∈ Finset.range c.inC, c.w ch k * t.val n k y x
      ∧ primaryOf (m8.forward training mask amask img)
          = interpolateBilinear
              ((interpolateBilinear (m8.fusePool4 training mask img)
                  (m8.score_pool3.apply (m8.pool3Tap img)).height
                  (m8.score_pool3.apply (m8.pool3Tap img)).width).add
                (m8.score_pool3.apply (m8.pool3Tap img)))
              img.height img.width := by
  refine ⟨rfl, rfl, rfl, rfl, rfl, rfl, rfl, rfl, rfl, rfl, ?_⟩
  cases h : m8.aux <;>
    simp [FCN8sModel.forward, primaryOf, h, FCN8sModel.fusePool4, FCN8sModel.pool3Tap,
      FCN8sModel.pool4Tap, FCN8sModel.pool5Tap]

/-- Claim C8: in evaluation mode (`training = false`, so the stochastic
regularizer is inactive) each variant's forward pass is a pure function of
the parameters and the input: its result does not depend on the dropout
mask draws, so any two runs on the same input — in the embedding, runs with
arbitrarily different mask draws — produce identical output tuples, and no
model state exists to be mutated (the forward functions take and return no
state). -/
theorem claim_C8 (m32 : FCN32sModel) (m16 : FCN16sModel) (m8 : FCN8sModel)
    (mask1 amask1 mask2 amask2 : DropMask) (x : Tensor) :
    m32.forward false mask1 amask1 x = m32.forward false mask2 amask2 x
      ∧ m16.forward false mask1 amask1 x = m16.forward false mask2 amask2 x
      ∧ m8.forward false mask1 amask1 x = m8.forward false mask2 amask2 x :=
  ⟨rfl, rfl, rfl⟩

/-- The `pool4` feature tap of `FCN16s.forward` on input `x`. -/
def FCN16sModel.pool4Tap (m : FCN16sModel) (x : Tensor) : Tensor :=
  seqApply m.pool4seq x

/-- The `pool5` (deepest) feature map of `FCN16s.forward` on input `x`. -/
def FCN16sModel.pool5Tap (m : FCN16sModel) (x : Tensor) : Tensor :=
  seqApply m.pool5seq (m.pool4Tap x)

/-- Claim C3: `FCN16s.forward` computes the primary output in exactly this
order: the head's score of the deepest feature map is bilinearly upsampled
(corner-aligned) to `score_pool4`'s spatial size — so the upsampled deep
score matches the finer skip's height and width, never the reverse — then
added elementwise to `score_pool4`, and the fused result is upsampled to the
input's spatial size. -/
theorem claim_C3 (m : FCN16sModel) (training : Bool) (mask amask : DropMask) (x : Tensor) :
    primaryOf (m.forward training mask amask x)
        = interpolateBilinear
            ((interpolateBilinear (m.head.apply training mask (m.pool5Tap x))
                (m.score_pool4.apply (m.pool4Tap x)).height
                (m.score_pool4.apply (m.pool4Tap x)).width).add
              (m.score_pool4.apply (m.pool4Tap x)))
            x.height x.width
      ∧ (interpolateBilinear (m.head.apply training mask (m.pool5Tap x))
            (m.score_pool4.apply (m.pool4Tap x)).height
            (m.score_pool4.apply (m.pool4Tap x)).width).height
          = (m.score_pool4.apply (m.pool4Tap x)).height
      ∧ (interpolateBilinear (m.head.apply training mask (m.pool5Tap x))
            (m.score_pool4.apply (m.pool4Tap x)).height
            (m.score_pool4.apply (m.pool4Tap x)).width).width
          = (m.score_pool4.apply (m.pool4Tap x)).width := by
  refine ⟨?_, rfl, rfl⟩
  cases h : m.aux <;>
    simp [FCN16sModel.forward, primaryOf, h, FCN16sModel.pool4Tap, FCN16sModel.pool5Tap]

/-- Claim C2: the FCN8s fusion cascade is a strict linear superposition of
independently computed score maps in coarse-to-fine order.  First conjunct:
the primary output factors through `primaryWithSp3`, a function of the
running fused score `fuse_pool4` and the `score_pool3` tap alone — skip taps
only ever meet the running fused score, never each other.  Second conjunct:
replacing `score_pool3`'s values by zero reduces it to the FCN16s-style
fused score upsampled first to `score_pool3`'s resolution and then to the
input resolution.  Third conjunct: the running fused score `fuse_pool4` is
exactly the FCN16s-style fusion, the head score upsampled to
`score_pool4`'s size plus `score_pool4`. -/
theorem claim_C2 (m : FCN8sModel) (training : Bool) (mask amask : DropMask) (x : Tensor) :
    primaryOf (m.forward training mask amask x)
        = m.primaryWithSp3 training mask x (m.scorePool3Tap x)
      ∧ m.primaryWithSp3 training mask x ((m.scorePool3Tap x).zeroLike)
        = interpolateBilinear
            (interpolateBilinear (m.fusePool4 training mask x)
              (m.scorePool3Tap x).height (m.scorePool3Tap x).width)
            x.height x.width
      ∧ m.fusePool4 training mask x
        = (interpolateBilinear (m.head.apply training mask (m.pool5Tap x))
            (m.score_pool4.apply (m.pool4Tap x)).height
            (m.score_pool4.apply (m.pool4Tap x)).width).add
          (m.score_pool4.apply (m.pool4Tap x)) := by
  refine ⟨?_, ?_, rfl⟩
  · cases h : m.aux <;>
      simp [FCN8sModel.forward, primaryOf, h, FCN8sModel.primaryWithSp3,
        FCN8sModel.fusePool4, FCN8sModel.scorePool3Tap, FCN8sModel.pool3Tap,
        FCN8sModel.pool4Tap, FCN8sModel.pool5Tap]
  · show interpolateBilinear
        ((interpolateBilinear (m.fusePool4 training mask x)
            ((m.scorePool3Tap x).zeroLike).height
            ((m.scorePool3Tap x).zeroLike).width).add ((m.scorePool3Tap x).zeroLike))
        x.height x.width = _
    rw [Tensor.add_zeroLike]
    rfl

/-- Composing two sequential slices is running the concatenated layer list. -/
theorem seqApply_append (l1 l2 : List (Tensor → Tensor)) (t : Tensor) :
    seqApply (l1 ++ l2) t = seqApply l2 (seqApply l1 t) := by
  simp [seqApply, List.foldl_append]

/-- The three FCN8s backbone slices `[:17]`, `[17:24]`, `[24:]` concatenate
back to the full layer list. -/
theorem take17_take24_drop24 (l : List (Tensor → Tensor)) :
    l.take 17 ++ (l.take 24).drop 17 ++ l.drop 24 = l := by
  have h1 : (l.take 24).take 17 = l.take 17 := by
    rw [List.take_take]
    norm_num
  calc l.take 17 ++ (l.take 24).drop 17 ++ l.drop 24
      = ((l.take 24).take 17 ++ (l.take 24).drop 17) ++ l.drop 24 := by rw [h1]
    _ = l.take 24 ++ l.drop 24 := by rw [List.take_append_drop]
    _ = l := List.take_append_drop 24 l

/-- Claim C10: in FCN16s the backbone slices `[0,24)` and `[24,end)`, and in
FCN8s the slices `[0,17)`, `[17,24)` and `[24,end)`, partition the full
backbone layer sequence consecutively — their concatenation is the original
layer list — so on every input the composed deep path computes exactly the
final feature map that FCN32s's undivided backbone computes. -/
theorem claim_C10 (m8 : FCN8sModel) (m16 : FCN16sModel) (m32 : FCN32sModel) (x : Tensor)
    (h16 : m16.features = m32.features) (h8 : m8.features = m32.features) :
    m16.pool4seq ++ m16.pool5seq = m16.features
      ∧ m8.pool3seq ++ m8.pool4seq ++ m8.pool5seq = m8.features
      ∧ seqApply m16.pool5seq (seqApply m16.pool4seq x) = seqApply m32.features x
      ∧ seqApply m8.pool5seq (seqApply m8.pool4seq (seqApply m8.pool3seq x))
          = seqApply m32.features x := by
  have p16 : m16.pool4seq ++ m16.pool5seq = m16.features :=
    List.take_append_drop 24 m16.features
  have p8 : m8.pool3seq ++ m8.pool4seq ++ m8.pool5seq = m8.features :=
    take17_take24_drop24 m8.features
  refine ⟨p16, p8, ?_, ?_⟩
  · rw [← seqApply_append, p16, h16]
  · rw [← seqApply_append, ← seqApply_append, ← List.append_assoc, p8, h8]

/-- A concrete FCN32s instance. -/
def m32Sample : FCN32sModel := ⟨21, false, [], zeroHeadParams, zeroHeadParams⟩

/-- A concrete FCN16s instance with the same backbone layers as `m32Sample`. -/
def m16Sample : FCN16sModel := ⟨21, false, [], zeroHeadParams, zeroW2, zeroB, zeroHeadParams⟩

/-- A concrete FCN8s instance with the same backbone layers as `m32Sample`. -/
def m8Sample : FCN8sModel :=
  ⟨21, false, [], zeroHeadParams, zeroW2, zeroB, zeroW2, zeroB, zeroHeadParams⟩

theorem claim_C10_witness :
    m16Sample.features = m32Sample.features
      ∧ m8Sample.features = m32Sample.features
      ∧ (m16Sample.pool4seq ++ m16Sample.pool5seq = m16Sample.features
          ∧ m8Sample.pool3seq ++ m8Sample.pool4seq ++ m8Sample.pool5seq = m8Sample.features
          ∧ seqApply m16Sample.pool5seq (seqApply m16Sample.pool4seq xSample)
              = seqApply m32Sample.features xSample
          ∧ seqApply m8Sample.pool5seq
                (seqApply m8Sample.pool4seq (seqApply m8Sample.pool3seq xSample))
              = seqApply m32Sample.features xSample) :=
  ⟨rfl, rfl, claim_C10 m8Sample m16Sample m32Sample xSample rfl rfl⟩
